import Mathlib

/-!
Verification of the Easel StageGL batching renderer (src/src/display/Stage.ts).

Each definition below is a shallow embedding of a function or a code path of
`StageGL`; line numbers in the doc comments refer to src/src/display/Stage.ts.
JS numbers are modelled as `Int` (or `Nat` for monotone counters), with
`Option` marking `undefined`/`NaN` where the code distinguishes them.
-/

namespace Easel

/-- `StageGL.INDICES_PER_CARD` (line 755): vertices written per quad. -/
def INDICES_PER_CARD : Nat := 6

/-- `StageGL.DEFAULT_MAX_BATCH_SIZE` (line 756). -/
def DEFAULT_MAX_BATCH_SIZE : Int := 10920

/-- `StageGL.DEFAULT_MIN_BATCH_SIZE` (line 757). -/
def DEFAULT_MIN_BATCH_SIZE : Int := 170

/-- Constructor lines 678-684:
`_maxBatchVertexCount = Math.max(Math.min(Number(batchSize) || DEFAULT_MAX_BATCH_SIZE,
DEFAULT_MAX_BATCH_SIZE), DEFAULT_MIN_BATCH_SIZE) * INDICES_PER_CARD`.
`none` models an absent `batchSize` option; the JS `||` default also fires when
`Number(batchSize)` is `0` (falsy) -- `NaN` inputs behave like `none`. -/
def maxBatchVertexCount (batchSize : Option Int) : Int :=
  let n : Int := match batchSize with
    | none => DEFAULT_MAX_BATCH_SIZE
    | some v => if v = 0 then DEFAULT_MAX_BATCH_SIZE else v
  max (min n DEFAULT_MAX_BATCH_SIZE) DEFAULT_MIN_BATCH_SIZE * (INDICES_PER_CARD : Int)

/-- Modelled from the spec sentence for claim C8 only (a refinement target, not
source code): capacity = `min(max(configuredBatchSize, MIN_BATCH_SIZE), MAX_BATCH_SIZE)
* verticesPerQuad`. -/
def specBatchCapacity (configuredBatchSize : Int) : Int :=
  min (max configuredBatchSize DEFAULT_MIN_BATCH_SIZE) DEFAULT_MAX_BATCH_SIZE *
    (INDICES_PER_CARD : Int)

/-- The fields of `StageGL` read and written by `_renderBatch` (lines 2473-2518)
and by the quad-append path of `_appendToBatch` (lines 2242-2246, 2350-2417).
The four parallel vertex arrays are abstracted to lists of raw entries (their
float contents are irrelevant to the claims); `writeLog` records the value of
`_batchVertexCount` at each moment a quad's six vertices are written. -/
structure StageBatch where
  batchVertexCount : Int
  maxBatchVertexCount : Int
  batchID : Int
  renderPerDraw : Int
  vertices : List Int
  uvs : List Int
  texIndices : List Int
  alphas : List Int
  writeLog : List Int
deriving DecidableEq

/-- `_renderBatch` (lines 2473-2518) projected onto the fields of `StageBatch`:
an early return when `_batchVertexCount <= 0`, otherwise the GPU submission
(which does not mutate the arrays) followed by `_batchVertexCount = 0` and
`_batchID++`.  `_renderPerDraw++` happens only after the guard. -/
def renderBatch (s : StageBatch) : StageBatch :=
  if s.batchVertexCount ≤ 0 then s
  else { s with
          renderPerDraw := s.renderPerDraw + 1
          batchVertexCount := 0
          batchID := s.batchID + 1 }

/-- `_appendToBatch` lines 2242-2246: `if (_batchVertexCount + INDICES_PER_CARD >
_maxBatchVertexCount) { batchReason = "vertexOverflow"; _renderBatch(); }`. -/
def flushIfOverflow (s : StageBatch) : StageBatch :=
  if s.batchVertexCount + (INDICES_PER_CARD : Int) > s.maxBatchVertexCount then
    renderBatch s
  else s

/-- One quad append of `_appendToBatch` (lines 2242-2246 then 2350-2417): the
overflow check, then the six vertex writes starting at cursor
`_batchVertexCount` (recorded in `writeLog`), then
`_batchVertexCount += INDICES_PER_CARD`. -/
def appendQuad (s : StageBatch) : StageBatch :=
  let s1 := flushIfOverflow s
  { s1 with
      writeLog := s1.writeLog ++ [s1.batchVertexCount]
      batchVertexCount := s1.batchVertexCount + (INDICES_PER_CARD : Int) }

/-- The batch-mutating events of one draw: a quad append, or a flush forced for
any of the other reasons (`shaderSwap`, `textureOverflow`, `contentEnd`,
`cachelessFilterInterupt`, `immediatePrep`), all of which go through
`_renderBatch`. -/
inductive BatchOp where
  | append : BatchOp
  | flush : BatchOp
deriving DecidableEq

/-- Run a sequence of batch events. -/
def runBatch (s : StageBatch) : List BatchOp → StageBatch
  | [] => s
  | BatchOp.append :: ops => runBatch (appendQuad s) ops
  | BatchOp.flush :: ops => runBatch (renderBatch s) ops

/-- The state of `_batchVertexCount` at the start of a draw (`draw`, line 1210
sets it to 0). -/
def initBatch (cap : Int) : StageBatch :=
  { batchVertexCount := 0, maxBatchVertexCount := cap, batchID := 0,
    renderPerDraw := 0, vertices := [], uvs := [], texIndices := [],
    alphas := [], writeLog := [] }

/-- The shader-compilation retry loop of `_initMaterials` (lines 1837-1851).
`ok c` tells whether `_fetchShaderProgram(false)` succeeds with
`_batchTextureCount = c` (the `try`/`catch`).  On failure:
`if (_batchTextureCount <= 1) throw; _batchTextureCount = (_batchTextureCount/2)|0`.
The result is the final `_batchTextureCount` on success, or the thrown message. -/
def initShaderLoop (ok : Nat → Bool) (count : Nat) : Except String Nat :=
  if ok count then Except.ok count
  else if count ≤ 1 then Except.error "Cannot compile shader"
  else initShaderLoop ok (count / 2)
termination_by count
decreasing_by omega

/-- The same `while (!success)` loop written with explicit fuel, so that
termination of the unbounded source loop is a theorem rather than a
side-effect of Lean totality; `none` means the fuel ran out. -/
def initShaderLoopFuel (ok : Nat → Bool) : Nat → Nat → Option (Except String Nat)
  | 0, _ => none
  | fuel + 1, count =>
    if ok count then some (Except.ok count)
    else if count ≤ 1 then some (Except.error "Cannot compile shader")
    else initShaderLoopFuel ok fuel (count / 2)

/-- The sequence of `_batchTextureCount` values the retry loop can visit,
halting at the first value `<= 1` (inclusive). -/
def halvingChain (count : Nat) : List Nat :=
  if count ≤ 1 then [count] else count :: halvingChain (count / 2)
termination_by count
decreasing_by omega

/-- The image-source side of `releaseTexture(item, safe = true)` (lines
1360-1366) once an image was found: `index = data.indexOf(foundImage);
if (index >= 0) data.splice(index, 1); if (data.length === 0)
_killTextureObject(texture)`.  `indexOf` plus `splice(index, 1)` removes the
first occurrence when present (`List.erase`); image sources are identified by
id; the result is the new `_imageData` list and whether `_killTextureObject`
ran. -/
def releaseImageSafe (imageData : List Nat) (foundImage : Nat) : List Nat × Bool :=
  let d := imageData.erase foundImage
  (d, decide (d.length = 0))

/-- An entry of a texture's `_imageData`: an image source with its
last-used-in-draw stamp `_drawID` (set at line 2302). -/
structure PurgeImage where
  id : Nat
  drawID : Nat
deriving DecidableEq

/-- A `_textureDictionary` entry as seen by `purgeTextures`: its owning-source
list `_imageData`. -/
structure PurgeTexture where
  imageData : List PurgeImage
deriving DecidableEq

/-- The state read and written by `purgeTextures`: `_textureDictionary`
(`none` = `undefined` entry, as left behind by `_killTextureObject`) and the
draw counter `_drawID`. -/
structure PurgeState where
  dict : List (Option PurgeTexture)
  drawID : Nat
deriving DecidableEq

/-- Argument normalisation of `purgeTextures` (line 1373):
`if (!(count >= 0)) { count = 100; }` (also the `NaN` guard). -/
def purgeCount (count : Int) : Int :=
  if ¬ (0 ≤ count) then 100 else count

/-- The survival test of the splice loop (lines 1382-1389): an image is
*removed* when `item._drawID + count <= this._drawID`, kept otherwise. -/
def purgeKeep (c : Int) (drawID : Nat) (item : PurgeImage) : Bool :=
  ! decide ((item.drawID : Int) + c ≤ (drawID : Int))

/-- The per-entry body of the `purgeTextures` loop (lines 1377-1392): skip
`undefined` entries, splice out the stale images (the `j--` splice loop is a
filter), and run `_killTextureObject` -- which blanks the dictionary entry --
when `_imageData` empties. -/
def purgeEntry (c : Int) (drawID : Nat) : Option PurgeTexture → Option PurgeTexture
  | none => none
  | some texture =>
    let d := texture.imageData.filter (purgeKeep c drawID)
    if d.length = 0 then none else some { texture with imageData := d }

/-- `purgeTextures(count)` (lines 1372-1393). -/
def purgeTextures (count : Int) (s : PurgeState) : PurgeState :=
  { s with dict := s.dict.map (purgeEntry (purgeCount count) s.drawID) }

/-- Field initializer of `_autoPurge` (line 495). -/
def AUTO_PURGE_DEFAULT : Int := 1200

/-- The `autoPurge` setter (lines 1102-1108):
`value = isNaN(value) ? 1200 : value; if (value !== -1) { value = value < 10 ?
10 : value; } this._autoPurge = value;`.  `none` models a `NaN` input. -/
def autoPurgeSet (value : Option Int) : Int :=
  let v : Int := match value with
    | none => 1200
    | some x => x
  if v ≠ -1 then (if v < 10 then 10 else v) else v

/-- The constructor path (line 671): `autoPurge && (this.autoPurge = autoPurge)`.
A falsy option (absent, `0`, `NaN`) skips the setter and leaves the field
default; `none` models both absent and `NaN` (both falsy). -/
def ctorAutoPurge (opt : Option Int) : Int :=
  match opt with
  | none => AUTO_PURGE_DEFAULT
  | some v => if v = 0 then AUTO_PURGE_DEFAULT else autoPurgeSet (some v)

/-- JS `ToInt32` (the `|0` operator): wrap into the signed 32-bit range
`[-2^31, 2^31)` by reducing modulo `2^32` (Lean's `%` on `Int` is the
non-negative remainder) and shifting the upper half down. -/
def toInt32 (x : Int) : Int :=
  let r := x % 4294967296
  if r < 2147483648 then r else r - 4294967296

/-- The scheduling divisor `(_autoPurge/2)|0` computed in `draw` (line 1242),
only evaluated there under the guard `_autoPurge !== -1`: JS float division by
2, then `|0`, i.e. truncation toward zero (`Int.tdiv`) followed by the 32-bit
wrap (exact for integer `_autoPurge` of magnitude below `2^53`). -/
def autoPurgeModulus (autoPurge : Int) : Int := toInt32 (autoPurge.tdiv 2)

/-- One entry of `StageGL.BLEND_SOURCES` (lines 933-1096): the optional GPU
blend-constant names, and whether a custom `shader` GLSL body is present.
`_updateRenderMode` observes the shader text only through its definedness
(`immediate: blendSrc.shader !== undefined`, line 2076), so the GLSL text
itself is not modelled. -/
structure BlendSrc where
  eqRGB : Option String := none
  srcRGB : Option String := none
  dstRGB : Option String := none
  eqA : Option String := none
  srcA : Option String := none
  dstA : Option String := none
  hasShader : Bool := false
deriving DecidableEq

/-- `StageGL.BLEND_SOURCES` (lines 933-1096), keyed by composite-operation
name; `none` models a key absent from the object literal. -/
def BLEND_SOURCES : String → Option BlendSrc
  | "source-over" => some {}
  | "source-in" => some { hasShader := true }
  | "source-in_cheap" => some
      { srcRGB := some "DST_ALPHA", srcA := some "ZERO",
        dstRGB := some "ZERO", dstA := some "SRC_ALPHA" }
  | "source-out" => some { hasShader := true }
  | "source-out_cheap" => some
      { eqA := some "FUNC_SUBTRACT",
        srcRGB := some "ONE_MINUS_DST_ALPHA", srcA := some "ONE",
        dstRGB := some "ZERO", dstA := some "SRC_ALPHA" }
  | "source-atop" => some
      { srcRGB := some "DST_ALPHA", srcA := some "ZERO",
        dstRGB := some "ONE_MINUS_SRC_ALPHA", dstA := some "ONE" }
  | "destination-over" => some
      { srcRGB := some "ONE_MINUS_DST_ALPHA",
        srcA := some "ONE_MINUS_DST_ALPHA", dstRGB := some "ONE", dstA := some "ONE" }
  | "destination-in" => some { hasShader := true }
  | "destination-in_cheap" => some
      { srcRGB := some "ZERO", srcA := some "DST_ALPHA",
        dstRGB := some "SRC_ALPHA", dstA := some "ZERO" }
  | "destination-out" => some
      { eqA := some "FUNC_REVERSE_SUBTRACT",
        srcRGB := some "ZERO", srcA := some "DST_ALPHA",
        dstRGB := some "ONE_MINUS_SRC_ALPHA", dstA := some "ONE" }
  | "destination-atop" => some { hasShader := true }
  | "destination-atop_cheap" => some
      { srcRGB := some "ONE_MINUS_DST_ALPHA",
        srcA := some "ONE", dstRGB := some "SRC_ALPHA", dstA := some "ZERO" }
  | "copy" => some { hasShader := true }
  | "copy_cheap" => some { dstRGB := some "ZERO", dstA := some "ZERO" }
  | "xor" => some { hasShader := true }
  | "multiply" => some { hasShader := true }
  | "multiply_cheap" => some
      { srcRGB := some "ONE_MINUS_DST_ALPHA",
        srcA := some "ONE", dstRGB := some "SRC_COLOR", dstA := some "ONE" }
  | "screen" => some
      { srcRGB := some "ONE", srcA := some "ONE",
        dstRGB := some "ONE_MINUS_SRC_COLOR", dstA := some "ONE_MINUS_SRC_ALPHA" }
  | "lighter" => some { dstRGB := some "ONE", dstA := some "ONE" }
  | "lighten" => some { hasShader := true }
  | "darken" => some { hasShader := true }
  | "overlay" => some { hasShader := true }
  | "hard-light" => some { hasShader := true }
  | "soft-light" => some { hasShader := true }
  | "color-dodge" => some { hasShader := true }
  | "color-burn" => some { hasShader := true }
  | "difference" => some { hasShader := true }
  | "exclusion" => some { hasShader := true }
  | "hue" => some { hasShader := true }
  | "saturation" => some { hasShader := true }
  | "color" => some { hasShader := true }
  | "luminosity" => some { hasShader := true }
  | _ => none

/-- A `_builtShaders[mode]` record (lines 2069-2082): the resolved GPU blend
constant names (defaults applied via `gl[blendSrc.x || default]`), the
`immediate` flag, and a tag standing for the compiled program object (the
mode's own cover program when a custom shader body exists, the shared batch
cover program otherwise; program object identity is not otherwise observed by
the claims). -/
structure ShaderData where
  eqRGB : String
  srcRGB : String
  dstRGB : String
  eqA : String
  srcA : String
  dstA : String
  immediate : Bool
  shaderTag : String
deriving DecidableEq

/-- Lines 2069-2082: build the memoized `_builtShaders[newMode]` entry from a
`BLEND_SOURCES` descriptor. -/
def buildShaderData (mode : String) (src : BlendSrc) : ShaderData :=
  { eqRGB := src.eqRGB.getD "FUNC_ADD"
    srcRGB := src.srcRGB.getD "ONE"
    dstRGB := src.dstRGB.getD "ONE_MINUS_SRC_ALPHA"
    eqA := src.eqA.getD "FUNC_ADD"
    srcA := src.srcA.getD "ONE"
    dstA := src.dstA.getD "ONE_MINUS_SRC_ALPHA"
    immediate := src.hasShader
    shaderTag := if src.hasShader then mode else "cover" }

/-- The GPU blend equation and function constants, as set by
`gl.blendEquationSeparate(eqRGB, eqA)` and
`gl.blendFuncSeparate(srcRGB, dstRGB, srcA, dstA)` (lines 2106-2107). -/
structure GpuBlend where
  eqRGB : String
  eqA : String
  srcRGB : String
  dstRGB : String
  srcA : String
  dstA : String
deriving DecidableEq

/-- The blend constants a `_builtShaders` record installs (lines 2106-2107). -/
def blendOf (d : ShaderData) : GpuBlend :=
  { eqRGB := d.eqRGB, eqA := d.eqA, srcRGB := d.srcRGB,
    dstRGB := d.dstRGB, srcA := d.srcA, dstA := d.dstA }

/-- The GPU blend state installed by `_initializeWebGL` (lines 1139-1140). -/
def initialGpuBlend : GpuBlend :=
  { eqRGB := "FUNC_ADD", eqA := "FUNC_ADD", srcRGB := "ONE",
    dstRGB := "ONE_MINUS_SRC_ALPHA", srcA := "ONE", dstA := "ONE_MINUS_SRC_ALPHA" }

/-- A quad recorded in the vertex buffers, tagged with the `_renderMode` and
the GPU blend configuration that were active when `_appendToBatch` wrote it. -/
structure QuadTag where
  mode : String
  blend : GpuBlend
deriving DecidableEq

/-- One GPU submission performed by `_renderBatch`: the flushed quads, and the
GPU blend configuration and `_renderMode` in force at the `drawArrays` call. -/
structure Submission where
  quads : List QuadTag
  blend : GpuBlend
  mode : String
deriving DecidableEq

/-- The `StageGL` state observed by `_updateRenderMode` (lines 2054-2108) and
by the append/flush cycle it orchestrates.  `pending` stands for the quads
currently in the vertex buffers (`_batchVertexCount = 6 * pending.length`, so
the `_renderBatch` guard `_batchVertexCount <= 0` is `pending = []`), and
`submitted` is the history of GPU submissions. -/
structure RenderModeState where
  renderMode : String
  immediateRender : Bool
  activeConfigMicro : Bool
  directDraw : Bool
  builtShaders : List (String × ShaderData)
  gpuBlend : GpuBlend
  pending : List QuadTag
  submitted : List Submission
deriving DecidableEq

/-- `_builtShaders[mode]` lookup; absent entry (or one reset to `undefined` by
the `catch` at line 2085) is `none`. -/
def lookupShader (memo : List (String × ShaderData)) (mode : String) : Option ShaderData :=
  (memo.find? (fun p => p.1 == mode)).map Prod.snd

/-- `_renderBatch` (lines 2473-2518) projected onto `RenderModeState`: when
quads are pending, submit them under the current GPU blend configuration and
`_renderMode`, and drain the buffer. -/
def renderBatchRM (s : RenderModeState) : RenderModeState :=
  if s.pending.isEmpty then s
  else { s with pending := [],
                submitted := s.submitted ++ [⟨s.pending, s.gpuBlend, s.renderMode⟩] }

/-- Lines 2091-2108 of `_updateRenderMode`, reached with a resolved
`shaderData`: reject immediate modes under direct draw (lines 2091-2095),
switch to the micro attribute layout for immediate modes (line 2096), flush
the pending batch (`batchReason = "shaderSwap"`, line 2102), and only then
install the new mode and its GPU blend constants (lines 2104-2107). -/
def applyModeSwitch (s : RenderModeState) (newMode : String) (d : ShaderData) :
    RenderModeState :=
  if d.immediate && s.directDraw then s
  else
    let s1 := if d.immediate then { s with activeConfigMicro := true } else s
    let s2 := renderBatchRM s1
    { s2 with renderMode := newMode, immediateRender := d.immediate,
              gpuBlend := blendOf d }

/-- Lines 2054-2061 of `_updateRenderMode`: a `null`/`undefined` argument
(`none`) becomes `"source-over"`, and an unknown mode falls back to
`"source-over"` (whose `BLEND_SOURCES` entry is the empty descriptor),
with a non-fatal log.  The result is the resolved mode name and its
descriptor. -/
def resolveBlendMode (newModeIn : Option String) : String × BlendSrc :=
  let m0 := newModeIn.getD "source-over"
  match BLEND_SOURCES m0 with
  | some b => (m0, b)
  | none => ("source-over", {})

/-- `_updateRenderMode(newMode)` (lines 2054-2108): resolve the mode, no-op
when it is already active (line 2063), fetch or build the memoized shader
record --- the `catch` (lines 2084-2088) leaves the entry undefined and
returns early when `ok newMode` fails --- then hand over to the mode switch
(lines 2091-2108). -/
def updateRenderMode (ok : String → Bool) (s : RenderModeState)
    (newModeIn : Option String) : RenderModeState :=
  let pr := resolveBlendMode newModeIn
  if s.renderMode = pr.1 then s
  else match lookupShader s.builtShaders pr.1 with
    | some shaderData => applyModeSwitch s pr.1 shaderData
    | none =>
      if ok pr.1 then
        let shaderData := buildShaderData pr.1 pr.2
        applyModeSwitch
          { s with builtShaders := (pr.1, shaderData) :: s.builtShaders }
          pr.1 shaderData
      else s

/-- One quad append of `_appendToBatch` (lines 2350-2417) as seen by this
model: the quad is written tagged with the active `_renderMode` and the GPU
blend configuration in force. -/
def appendQuadRM (s : RenderModeState) : RenderModeState :=
  { s with pending := s.pending ++ [⟨s.renderMode, s.gpuBlend⟩] }

/-- The events that touch the render-mode machine during a draw: a quad
append, an `_updateRenderMode` call (from `draw`, `_drawContent` or
`_appendToBatch`), or a flush for any non-shader-swap reason (vertex overflow,
texture overflow, content end, immediate prep, cache interrupt). -/
inductive RMOp where
  | append : RMOp
  | setMode : Option String → RMOp
  | flush : RMOp
deriving DecidableEq

/-- Step the render-mode machine by one event. -/
def stepRM (ok : String → Bool) (s : RenderModeState) : RMOp → RenderModeState
  | RMOp.append => appendQuadRM s
  | RMOp.setMode m => updateRenderMode ok s m
  | RMOp.flush => renderBatchRM s

/-- Run a sequence of render-mode events. -/
def runRM (ok : String → Bool) (s : RenderModeState) : List RMOp → RenderModeState
  | [] => s
  | op :: ops => runRM ok (stepRM ok s op) ops

/-- The state right after `_initializeWebGL` set up the GL blend state (lines
1134-1143): `_renderMode` starts as the invalid `""` (line 607), no shaders
built, empty buffers. -/
def initRM (directDraw : Bool) : RenderModeState :=
  { renderMode := "", immediateRender := false, activeConfigMicro := false,
    directDraw := directDraw, builtShaders := [], gpuBlend := initialGpuBlend,
    pending := [], submitted := [] }

/-- The `StageGL` state observed by the slot-acquisition scan of
`_insertTextureInBatch` (lines 1957-2002).  A slot holds the last-used-in-batch
stamp `_batchID` of its occupant; `none` is the shared base texture (or any
occupant whose `_batchID` was never assigned, i.e. JS `undefined`, which
compares `!==` to every number).  `evictions` logs every slot replacement:
`(slot index, evicted occupant's stamp, value of _batchID at the moment of the
replacement)`. -/
structure TexSlots where
  slots : List (Option Nat)
  blacklist : List Bool
  batchID : Nat
  batchVertexCount : Nat
  lastTextureInsert : Int
  evictions : List (Nat × Option Nat × Nat)
deriving DecidableEq

/-- `_renderBatch` (lines 2473-2518) projected onto `TexSlots`: on a non-empty
batch, drain the vertex cursor and advance `_batchID`. -/
def renderBatchTS (s : TexSlots) : TexSlots :=
  if s.batchVertexCount = 0 then s
  else { s with batchVertexCount := 0, batchID := s.batchID + 1 }

/-- Line 1962: `start = (_lastTextureInsert+1) % _batchTextureCount`
(`_lastTextureInsert` starts at `-1` and is otherwise a slot index, so the JS
remainder is the non-negative one). -/
def scanStart (s : TexSlots) : Nat :=
  ((s.lastTextureInsert + 1) % (s.slots.length : Int)).toNat

/-- The loop condition at line 1965: the occupant of slot `look` was not used
in the current batch (`_batchTextures[look]._batchID !== this._batchID`) and
the slot is not blacklisted. -/
def slotEligible (s : TexSlots) (look : Nat) : Bool :=
  decide (s.slots.getD look none ≠ some s.batchID) && !(s.blacklist.getD look false)

/-- The visiting order of the do-while round-robin scan (lines 1963-1970):
each of the `_batchTextureCount` slots once, starting at `start`. -/
def scanOrder (start n : Nat) : List Nat :=
  (List.range n).map (fun k => (start + k) % n)

/-- The result of the round-robin scan: the first eligible slot, `none` when
the scan wraps around without a hit (`found === -1`). -/
def findSlot (s : TexSlots) : Option Nat :=
  (scanOrder (scanStart s) s.slots.length).find? (slotEligible s)

/-- The not-already-in-batch branch of `_insertTextureInBatch` (lines
1959-1991): scan for a slot; on exhaustion (`found === -1`) flush
(`batchReason = "textureOverflow"`, line 1975) and take the start slot.  The
chosen slot's occupant is evicted (logged), the inserted texture occupies the
slot with stamp `_batchID` (line 2001, after the potential flush), and
`_lastTextureInsert = found`. -/
def insertTexture (s : TexSlots) : TexSlots :=
  match findSlot s with
  | some found =>
    { s with slots := s.slots.set found (some s.batchID),
             lastTextureInsert := (found : Int),
             evictions := s.evictions ++ [(found, s.slots.getD found none, s.batchID)] }
  | none =>
    let s1 := renderBatchTS s
    let start := scanStart s1
    { s1 with slots := s1.slots.set start (some s1.batchID),
              lastTextureInsert := (start : Int),
              evictions := s1.evictions ++ [(start, s1.slots.getD start none, s1.batchID)] }

/-- The slot-table events of a frame:
`insertNew` is an `_appendToBatch` item whose texture is not in the batch
(`_insertTextureInBatch` slow path, then the quad's six vertices are written);
`touch j` is an item whose texture already sits in slot `j` (fast path of
lines 1959/1993-2001: only the stamps are refreshed, then the six vertices);
`flush` is any other `_renderBatch` call (shader swap, vertex overflow,
immediate prep, cache interrupt); `drawBoundary` is the end of one `draw` and
the start of the next (`_drawContent`'s final `"contentEnd"` flush at line
2124, then `draw` resetting `_batchVertexCount = 0` at line 1210);
`killSlot j` is `_killTextureObject` dropping an occupant back to the
never-stamped base texture (lines 2022-2024). -/
inductive TexOp where
  | insertNew : TexOp
  | touch : Nat → TexOp
  | flush : TexOp
  | drawBoundary : TexOp
  | killSlot : Nat → TexOp
deriving DecidableEq

/-- Step the slot machine by one event. -/
def stepTex (s : TexSlots) : TexOp → TexSlots
  | TexOp.insertNew =>
    let s1 := insertTexture s
    { s1 with batchVertexCount := s1.batchVertexCount + INDICES_PER_CARD }
  | TexOp.touch j =>
    { s with slots := s.slots.set j (some s.batchID),
             batchVertexCount := s.batchVertexCount + INDICES_PER_CARD }
  | TexOp.flush => renderBatchTS s
  | TexOp.drawBoundary =>
    let s1 := renderBatchTS s
    { s1 with batchVertexCount := 0 }
  | TexOp.killSlot j => { s with slots := s.slots.set j none }

/-- Run a sequence of slot-table events. -/
def runTex (s : TexSlots) : List TexOp → TexSlots
  | [] => s
  | op :: ops => runTex (stepTex s op) ops

/-- The slot table right after `_initMaterials` (lines 1826, 1863-1865): all
`n` slots hold the shared, never-stamped base texture; `_lastTextureInsert`
is `-1`; `_slotBlacklist` is the empty array (it is never written in this
code base, so `!_slotBlacklist[look]` always passes). -/
def initTex (n : Nat) : TexSlots :=
  { slots := List.replicate n none, blacklist := [], batchID := 0,
    batchVertexCount := 0, lastTextureInsert := -1, evictions := [] }

/-- Every submission `_renderBatch` ever performed carried only quads that were
appended under exactly the `_renderMode` and GPU blend configuration the
submission was issued with. -/
def SubmissionsTagged (s : RenderModeState) : Prop :=
  ∀ sub ∈ s.submitted, ∀ q ∈ sub.quads, q.mode = sub.mode ∧ q.blend = sub.blend

/-- Every quad still sitting in the vertex buffers was appended under the
currently active `_renderMode` and GPU blend configuration. -/
def PendingTagged (s : RenderModeState) : Prop :=
  ∀ q ∈ s.pending, q.mode = s.renderMode ∧ q.blend = s.gpuBlend

/-- Every `_builtShaders` entry was built by lines 2069-2082 from the
`BLEND_SOURCES` descriptor of its key. -/
def MemoConsistent (s : RenderModeState) : Prop :=
  ∀ p ∈ s.builtShaders,
    ∃ bs, BLEND_SOURCES p.1 = some bs ∧ p.2 = buildShaderData p.1 bs

/-- Invariant of the slot table: the blacklist is the untouched empty array,
and every occupant's stamp is at most the current `_batchID`, with a stamp
equal to the current `_batchID` only while vertices are pending (a texture is
stamped at insert time and the quad's six vertices follow immediately). -/
def TexInv (s : TexSlots) : Prop :=
  s.blacklist = [] ∧
  ∀ st ∈ s.slots, ∀ x, st = some x →
    x ≤ s.batchID ∧ (x = s.batchID → 0 < s.batchVertexCount)

/-- Every logged eviction removed an occupant whose last-used-in-batch stamp
was strictly behind the `_batchID` current at the moment of the eviction. -/
def EvictSafe (s : TexSlots) : Prop :=
  ∀ e ∈ s.evictions, ∀ x, e.2.1 = some x → x < e.2.2

/-!  Theorems.  -/

/-- Claim C8, counterexample: with `batchSize = 0` the constructor's
`Number(batchSize) || DEFAULT_MAX_BATCH_SIZE` default fires, producing
`10920 * 6 = 65520`, while the claimed clamping formula gives
`170 * 6 = 1020`. -/
theorem C8_formula_counterexample :
    maxBatchVertexCount (some 0) ≠ specBatchCapacity 0 := by decide

/-- Claim C8 (amended): for every nonzero (and non-`NaN`) `batchSize` option,
`_maxBatchVertexCount` equals the configured batch size clamped between
`DEFAULT_MIN_BATCH_SIZE` and `DEFAULT_MAX_BATCH_SIZE` times
`INDICES_PER_CARD`; a zero, `NaN` or absent option is first replaced by
`DEFAULT_MAX_BATCH_SIZE`. -/
theorem C8_capacity_formula (b : Int) (hb : b ≠ 0) :
    maxBatchVertexCount (some b) = specBatchCapacity b := by
  simp only [maxBatchVertexCount, specBatchCapacity, DEFAULT_MAX_BATCH_SIZE,
    DEFAULT_MIN_BATCH_SIZE, INDICES_PER_CARD, if_neg hb]
  omega

/-- Witness for C8: a concrete in-range batch size. -/
theorem C8_capacity_formula_witness :
    maxBatchVertexCount (some 300) = specBatchCapacity 300 :=
  C8_capacity_formula 300 (by decide)

/-- Claim C4: `_renderBatch` with no pending vertices is a silent no-op (the
whole state, in particular the cursor, the batch counter and the four vertex
arrays, is untouched); with pending vertices it zeroes `_batchVertexCount`,
increments `_batchID` by exactly one, and leaves the arrays unchanged. -/
theorem C4_flush_completeness (s : StageBatch) :
    (s.batchVertexCount ≤ 0 → renderBatch s = s) ∧
    (0 < s.batchVertexCount →
      (renderBatch s).batchVertexCount = 0 ∧
      (renderBatch s).batchID = s.batchID + 1 ∧
      (renderBatch s).vertices = s.vertices ∧
      (renderBatch s).uvs = s.uvs ∧
      (renderBatch s).texIndices = s.texIndices ∧
      (renderBatch s).alphas = s.alphas) := by
  constructor
  · intro h
    simp [renderBatch, h]
  · intro h
    simp [renderBatch, show ¬ s.batchVertexCount ≤ 0 by omega]

/-- Witness for C4: an empty flush is the identity and a six-vertex flush
drains the cursor. -/
theorem C4_flush_completeness_witness :
    renderBatch (initBatch 1020) = initBatch 1020 ∧
    (renderBatch (appendQuad (initBatch 1020))).batchVertexCount = 0 ∧
    (renderBatch (appendQuad (initBatch 1020))).batchID
      = (appendQuad (initBatch 1020)).batchID + 1 := by
  refine ⟨(C4_flush_completeness (initBatch 1020)).1 (by decide), ?_, ?_⟩
  · exact ((C4_flush_completeness (appendQuad (initBatch 1020))).2 (by decide)).1
  · exact ((C4_flush_completeness (appendQuad (initBatch 1020))).2 (by decide)).2.1

/-- `ToInt32` is the identity below `2^31`. -/
theorem toInt32_of_nonneg_lt (x : Int) (h0 : 0 ≤ x) (hlt : x < 2147483648) :
    toInt32 x = x := by
  unfold toInt32
  have hmod : x % 4294967296 = x := Int.emod_eq_of_lt h0 (by omega)
  rw [hmod, if_pos hlt]

/-- For stored intervals in `[10, 2^32)` the draw divisor is exact integer
halving, hence at least 5. -/
theorem autoPurgeModulus_in_range (a : Int) (h10 : 10 ≤ a)
    (hlt : a < 4294967296) :
    autoPurgeModulus a = a / 2 ∧ 5 ≤ autoPurgeModulus a := by
  unfold autoPurgeModulus
  rw [Int.tdiv_eq_ediv (by omega) (by omega),
    toInt32_of_nonneg_lt (a / 2) (by omega) (by omega)]
  exact ⟨rfl, by omega⟩

/-- Claim C10, counterexample: the `autoPurge` setter stores `2^33` unchanged
(it is neither `-1` nor below 10), yet the 32-bit wrap of `|0` makes the draw
divisor `(2^33 / 2)|0 = 0`, so `draw`'s guard `_autoPurge !== -1` passes and
line 1242 takes `_drawID % 0` --- the claimed never-zero modulus fails. -/
theorem C10_modulus_counterexample :
    autoPurgeSet (some 8589934592) = 8589934592 ∧
    autoPurgeSet (some 8589934592) ≠ -1 ∧
    autoPurgeModulus (autoPurgeSet (some 8589934592)) = 0 := by decide

/-- Claim C10 (amended): after construction and after every `autoPurge`
assignment the stored `_autoPurge` is `-1` or at least `10` (a `NaN`
assignment stores the default `1200`); and whenever the stored interval is
also below `2^32`, the scheduling divisor `(_autoPurge/2)|0` evaluated in
`draw` under the `_autoPurge !== -1` guard is at least `5`, never zero.  (For
stored intervals of `2^32` and above the 32-bit wrap can drive the divisor to
zero or below, see the counterexample.) -/
theorem C10_autoPurge_invariant (opt value : Option Int) :
    (ctorAutoPurge opt = -1 ∨ 10 ≤ ctorAutoPurge opt) ∧
    (autoPurgeSet value = -1 ∨ 10 ≤ autoPurgeSet value) ∧
    autoPurgeSet none = 1200 ∧
    (autoPurgeSet value ≠ -1 → autoPurgeSet value < 4294967296 →
      5 ≤ autoPurgeModulus (autoPurgeSet value) ∧
      autoPurgeModulus (autoPurgeSet value) ≠ 0) ∧
    (ctorAutoPurge opt ≠ -1 → ctorAutoPurge opt < 4294967296 →
      5 ≤ autoPurgeModulus (ctorAutoPurge opt) ∧
      autoPurgeModulus (ctorAutoPurge opt) ≠ 0) := by
  have hinv2 : autoPurgeSet value = -1 ∨ 10 ≤ autoPurgeSet value := by
    rcases value with _ | w <;>
      simp only [autoPurgeSet] <;> split_ifs <;> omega
  have hinv1 : ctorAutoPurge opt = -1 ∨ 10 ≤ ctorAutoPurge opt := by
    rcases opt with _ | v
    · right
      decide
    · simp only [ctorAutoPurge, autoPurgeSet, AUTO_PURGE_DEFAULT]
      split_ifs <;> omega
  refine ⟨hinv1, hinv2, by decide, ?_, ?_⟩
  · intro hne hlt
    have h10 : 10 ≤ autoPurgeSet value := by
      rcases hinv2 with h | h
      · exact absurd h hne
      · exact h
    have hm := autoPurgeModulus_in_range _ h10 hlt
    exact ⟨hm.2, by omega⟩
  · intro hne hlt
    have h10 : 10 ≤ ctorAutoPurge opt := by
      rcases hinv1 with h | h
      · exact absurd h hne
      · exact h
    have hm := autoPurgeModulus_in_range _ h10 hlt
    exact ⟨hm.2, by omega⟩

/-- Witness for C10: a small positive assignment is clamped to `10`, is below
`2^32`, and keeps the divisor nonzero. -/
theorem C10_autoPurge_invariant_witness :
    autoPurgeSet (some 3) ≠ -1 ∧
    5 ≤ autoPurgeModulus (autoPurgeSet (some 3)) ∧
    autoPurgeModulus (autoPurgeSet (some 3)) ≠ 0 := by
  refine ⟨by decide, ?_⟩
  exact (C10_autoPurge_invariant (some 3) (some 3)).2.2.2.1 (by decide) (by decide)

/-- Claim C7: in safe mode, releasing an image source that shares its texture
with at least one other live source removes only that source from
`_imageData` (first occurrence; every other source's multiplicity is kept)
and does not call `_killTextureObject`; the texture is destroyed exactly when
the release empties the owning-source list. -/
theorem C7_release_safe_refcount (data : List Nat) (img : Nat) :
    (2 ≤ data.length →
      (releaseImageSafe data img).2 = false ∧
      1 ≤ (releaseImageSafe data img).1.length) ∧
    ((releaseImageSafe data img).2 = true ↔ (releaseImageSafe data img).1 = []) ∧
    data.count img
      = (releaseImageSafe data img).1.count img + (if img ∈ data then 1 else 0) ∧
    (∀ y, y ≠ img → (releaseImageSafe data img).1.count y = data.count y) := by
  have hfst : (releaseImageSafe data img).1 = data.erase img := rfl
  have hsnd : (releaseImageSafe data img).2
      = decide ((releaseImageSafe data img).1.length = 0) := rfl
  refine ⟨?_, ?_, ?_, ?_⟩
  · intro h2
    have hlen : 1 ≤ (releaseImageSafe data img).1.length := by
      rw [hfst, List.length_erase]
      split <;> omega
    refine ⟨?_, hlen⟩
    rw [hsnd]
    simp only [decide_eq_false_iff_not]
    omega
  · rw [hsnd]
    simp [List.length_eq_zero]
  · rw [hfst]
    by_cases hm : img ∈ data
    · have hc : 0 < data.count img := List.count_pos_iff.mpr hm
      rw [List.count_erase_self]
      simp only [hm, if_pos, if_true]
      omega
    · rw [List.erase_of_not_mem hm]
      simp [hm]
  · intro y hy
    rw [hfst]
    exact List.count_erase_of_ne hy data

/-- Witness for C7: a texture shared by two sources survives the release of
one of them. -/
theorem C7_release_safe_refcount_witness :
    (releaseImageSafe [7, 9] 7).2 = false ∧
    1 ≤ (releaseImageSafe [7, 9] 7).1.length :=
  (C7_release_safe_refcount [7, 9] 7).1 (by decide)

/-- One purge pass is idempotent on a dictionary entry: survivors of the
filter all satisfy the survival test, so a second identical pass keeps them
all and kills nothing. -/
theorem purgeEntry_idem (c : Int) (drawID : Nat) (entry : Option PurgeTexture) :
    purgeEntry c drawID (purgeEntry c drawID entry) = purgeEntry c drawID entry := by
  cases entry with
  | none => rfl
  | some texture =>
    unfold purgeEntry
    by_cases hd : (texture.imageData.filter (purgeKeep c drawID)).length = 0
    · simp [hd]
    · simp only [hd, if_neg hd]
      have hresurvive : (texture.imageData.filter (purgeKeep c drawID)).filter
          (purgeKeep c drawID) = texture.imageData.filter (purgeKeep c drawID) :=
        List.filter_eq_self.mpr (fun a ha => List.of_mem_filter ha)
      simp [hresurvive, hd]

/-- Claim C9: with the draw counter and all per-image draw stamps unchanged,
a second `purgeTextures` call with the same threshold is the identity on the
result of the first: it removes no image reference and destroys no texture. -/
theorem C9_purge_idempotent (count : Int) (s : PurgeState) :
    purgeTextures count (purgeTextures count s) = purgeTextures count s := by
  unfold purgeTextures
  simp only [List.map_map]
  congr 1
  apply List.map_congr_left
  intro entry _
  exact purgeEntry_idem (purgeCount count) s.drawID entry

/-- The bounded loop agrees with the recursive one whenever the fuel exceeds
the starting texture count: the halving retry loop always terminates. -/
theorem initShaderLoopFuel_eq (ok : Nat → Bool) :
    ∀ fuel count, count < fuel →
      initShaderLoopFuel ok fuel count = some (initShaderLoop ok count) := by
  intro fuel
  induction fuel with
  | zero => intro c hc; exact absurd hc (Nat.not_lt_zero c)
  | succ n ih =>
    intro c hc
    rw [initShaderLoop]
    by_cases h1 : ok c
    · simp [initShaderLoopFuel, h1]
    · by_cases h2 : c ≤ 1
      · simp [initShaderLoopFuel, h1, h2]
      · simp only [initShaderLoopFuel, h1, h2, Bool.false_eq_true, if_false]
        exact ih (c / 2) (by omega)

/-- A positive texture count heads its own halving chain. -/
theorem halvingChain_self_mem (c : Nat) : c ∈ halvingChain c := by
  rw [halvingChain]
  by_cases h : c ≤ 1 <;> simp [h]

/-- Starting from a positive texture count, the halving chain reaches exactly 1. -/
theorem halvingChain_mem_one : ∀ c, 1 ≤ c → 1 ∈ halvingChain c := by
  intro c
  induction c using Nat.strong_induction_on with
  | _ c ih =>
    intro h1
    rw [halvingChain]
    by_cases h : c ≤ 1
    · have hc1 : c = 1 := by omega
      simp [h, hc1]
    · simp only [h, if_false, List.mem_cons]
      exact Or.inr (ih (c / 2) (by omega) (by omega))

/-- Starting from a positive texture count, the halving chain never drops
below 1. -/
theorem halvingChain_pos : ∀ c, 1 ≤ c → ∀ x ∈ halvingChain c, 1 ≤ x := by
  intro c
  induction c using Nat.strong_induction_on with
  | _ c ih =>
    intro h1 x hx
    rw [halvingChain] at hx
    by_cases h : c ≤ 1
    · simp only [h, if_true, List.mem_singleton] at hx
      omega
    · simp only [h, if_false, List.mem_cons] at hx
      rcases hx with rfl | hx
      · omega
      · exact ih (c / 2) (by omega) (by omega) x hx

/-- The retry loop throws exactly when compilation fails at every count of the
halving chain. -/
theorem initShaderLoop_error_iff (ok : Nat → Bool) :
    ∀ c, initShaderLoop ok c = Except.error "Cannot compile shader" ↔
      ∀ x ∈ halvingChain c, ok x = false := by
  intro c
  induction c using Nat.strong_induction_on with
  | _ c ih =>
    rw [initShaderLoop, halvingChain]
    by_cases h1 : ok c
    · by_cases h : c ≤ 1 <;> simp [h1, h]
    · by_cases h : c ≤ 1
      · simp [h1, h]
      · simp only [h1, Bool.false_eq_true, if_false, h, List.mem_cons]
        rw [ih (c / 2) (by omega)]
        constructor
        · intro hall x hx
          rcases hx with rfl | hx
          · simpa using h1
          · exact hall x hx
        · intro hall x hx
          exact hall x (Or.inr hx)

/-- When the retry loop succeeds, the final count is a member of the halving
chain and compiles. -/
theorem initShaderLoop_ok_mem (ok : Nat → Bool) :
    ∀ c n, initShaderLoop ok c = Except.ok n → ok n = true ∧ n ∈ halvingChain c := by
  intro c
  induction c using Nat.strong_induction_on with
  | _ c ih =>
    intro n hn
    rw [initShaderLoop] at hn
    by_cases h1 : ok c
    · simp only [h1, if_true] at hn
      cases hn
      exact ⟨h1, halvingChain_self_mem c⟩
    · by_cases h : c ≤ 1
      · simp [h1, h] at hn
      · simp only [h1, Bool.false_eq_true, if_false, h] at hn
        obtain ⟨hok, hmem⟩ := ih (c / 2) (by omega) n hn
        refine ⟨hok, ?_⟩
        rw [halvingChain]
        simp only [h, if_false, List.mem_cons]
        exact Or.inr hmem

/-- Claim C5: the `_initMaterials` retry loop terminates on every execution
(fuel `c+1` suffices); its result is a compiled shader at some count of the
halving chain (which stays at or above 1 and reaches exactly 1), or the
`throw`, which happens precisely when every count of the chain fails --- in
particular only when compilation still fails at count 1. -/
theorem C5_shader_degradation (ok : Nat → Bool) (c : Nat) (h1 : 1 ≤ c) :
    initShaderLoopFuel ok (c + 1) c = some (initShaderLoop ok c) ∧
    (initShaderLoop ok c = Except.error "Cannot compile shader" ↔
      ∀ x ∈ halvingChain c, ok x = false) ∧
    (∀ n, initShaderLoop ok c = Except.ok n →
      ok n = true ∧ 1 ≤ n ∧ n ∈ halvingChain c) ∧
    1 ∈ halvingChain c ∧
    (∀ x ∈ halvingChain c, 1 ≤ x) ∧
    (initShaderLoop ok c = Except.error "Cannot compile shader" → ok 1 = false) := by
  refine ⟨initShaderLoopFuel_eq ok (c + 1) c (by omega),
    initShaderLoop_error_iff ok c, ?_, halvingChain_mem_one c h1,
    halvingChain_pos c h1, ?_⟩
  · intro n hn
    obtain ⟨hok, hmem⟩ := initShaderLoop_ok_mem ok c n hn
    exact ⟨hok, halvingChain_pos c h1 n hmem, hmem⟩
  · intro herr
    exact (initShaderLoop_error_iff ok c).mp herr 1 (halvingChain_mem_one c h1)

/-- Witness for C5: starting at 16 texture units with a compiler that only
manages 2 or fewer, the loop halves 16, 8, 4 and lands on 2. -/
theorem C5_shader_degradation_witness :
    initShaderLoop (fun n => decide (n ≤ 2)) 16 = Except.ok 2 ∧
    1 ∈ halvingChain 16 := by
  have h := (C5_shader_degradation (fun n => decide (n ≤ 2)) 16 (by decide)).1
  have h2 : initShaderLoopFuel (fun n => decide (n ≤ 2)) 17 16
      = some (Except.ok 2) := rfl
  rw [h] at h2
  exact ⟨Option.some.inj h2, (C5_shader_degradation (fun n => decide (n ≤ 2)) 16
    (by decide)).2.2.2.1⟩

/-- The overflow guard of `_appendToBatch`: after it runs, writing one quad
fits, because an overflowing non-empty batch was flushed to cursor zero (a
capacity of at least one quad makes the empty-flush corner impossible). -/
theorem flushIfOverflow_spec (s : StageBatch)
    (h6 : (INDICES_PER_CARD : Int) ≤ s.maxBatchVertexCount)
    (h0 : 0 ≤ s.batchVertexCount) :
    (flushIfOverflow s).maxBatchVertexCount = s.maxBatchVertexCount ∧
    (flushIfOverflow s).writeLog = s.writeLog ∧
    0 ≤ (flushIfOverflow s).batchVertexCount ∧
    (flushIfOverflow s).batchVertexCount + (INDICES_PER_CARD : Int)
      ≤ s.maxBatchVertexCount := by
  have h6' : (6 : Int) ≤ s.maxBatchVertexCount := by
    simpa [INDICES_PER_CARD] using h6
  unfold flushIfOverflow renderBatch
  split
  · rename_i hov
    split
    · rename_i hz
      exfalso
      simp only [INDICES_PER_CARD] at hov
      omega
    · refine ⟨rfl, rfl, le_refl 0, ?_⟩
      simp only [INDICES_PER_CARD]
      omega
  · rename_i hov
    refine ⟨rfl, rfl, h0, ?_⟩
    omega

/-- `_renderBatch` leaves capacity and write log alone, and either drains or
keeps the cursor. -/
theorem renderBatch_fields (s : StageBatch) :
    (renderBatch s).maxBatchVertexCount = s.maxBatchVertexCount ∧
    (renderBatch s).writeLog = s.writeLog ∧
    ((renderBatch s).batchVertexCount = 0 ∨
      (renderBatch s).batchVertexCount = s.batchVertexCount) := by
  unfold renderBatch
  split
  · exact ⟨rfl, rfl, Or.inr rfl⟩
  · exact ⟨rfl, rfl, Or.inl rfl⟩

/-- Claim C1 invariant, per event: appends and flushes keep the cursor within
`[0, capacity]`, keep the capacity, and only log in-bounds write moments. -/
theorem runBatch_inv (ops : List BatchOp) :
    ∀ s : StageBatch,
      (INDICES_PER_CARD : Int) ≤ s.maxBatchVertexCount →
      0 ≤ s.batchVertexCount →
      s.batchVertexCount ≤ s.maxBatchVertexCount →
      (∀ c ∈ s.writeLog, c + (INDICES_PER_CARD : Int) ≤ s.maxBatchVertexCount) →
      (runBatch s ops).maxBatchVertexCount = s.maxBatchVertexCount ∧
      0 ≤ (runBatch s ops).batchVertexCount ∧
      (runBatch s ops).batchVertexCount ≤ s.maxBatchVertexCount ∧
      (∀ c ∈ (runBatch s ops).writeLog,
        c + (INDICES_PER_CARD : Int) ≤ s.maxBatchVertexCount) := by
  induction ops with
  | nil => intro s _ h0 hle hlog; exact ⟨rfl, h0, hle, hlog⟩
  | cons op ops ih =>
    intro s h6 h0 hle hlog
    cases op with
    | flush =>
      obtain ⟨hm, hw, hcnt⟩ := renderBatch_fields s
      have h6' : (INDICES_PER_CARD : Int) ≤ (renderBatch s).maxBatchVertexCount := by
        rw [hm]; exact h6
      have h0' : 0 ≤ (renderBatch s).batchVertexCount := by
        rcases hcnt with h | h <;> omega
      have hle' : (renderBatch s).batchVertexCount
          ≤ (renderBatch s).maxBatchVertexCount := by
        rw [hm]; rcases hcnt with h | h <;> omega
      have hlog' : ∀ c ∈ (renderBatch s).writeLog,
          c + (INDICES_PER_CARD : Int) ≤ (renderBatch s).maxBatchVertexCount := by
        rw [hm, hw]; exact hlog
      have H := ih (renderBatch s) h6' h0' hle' hlog'
      rw [hm] at H
      show (runBatch (renderBatch s) ops).maxBatchVertexCount = s.maxBatchVertexCount ∧ _
      exact ⟨H.1, H.2.1, H.2.2.1, H.2.2.2⟩
    | append =>
      obtain ⟨hm, hw, hz, hfit⟩ := flushIfOverflow_spec s h6 h0
      have hm' : (appendQuad s).maxBatchVertexCount = s.maxBatchVertexCount := hm
      have hcnt' : (appendQuad s).batchVertexCount
          = (flushIfOverflow s).batchVertexCount + (INDICES_PER_CARD : Int) := rfl
      have h6'' : (INDICES_PER_CARD : Int) ≤ (appendQuad s).maxBatchVertexCount := by
        rw [hm']; exact h6
      have hz' : 0 ≤ (appendQuad s).batchVertexCount := by
        rw [hcnt']; simp only [INDICES_PER_CARD]; omega
      have hle' : (appendQuad s).batchVertexCount
          ≤ (appendQuad s).maxBatchVertexCount := by
        rw [hm', hcnt']; exact hfit
      have hlog' : ∀ c ∈ (appendQuad s).writeLog,
          c + (INDICES_PER_CARD : Int) ≤ (appendQuad s).maxBatchVertexCount := by
        intro c hc
        rw [hm']
        have hmem : c ∈ (flushIfOverflow s).writeLog
            ++ [(flushIfOverflow s).batchVertexCount] := hc
        rw [List.mem_append] at hmem
        rcases hmem with hc1 | hc2
        · exact hlog c (hw ▸ hc1)
        · simp only [List.mem_singleton] at hc2
          subst hc2
          exact hfit
      have H := ih (appendQuad s) h6'' hz' hle' hlog'
      rw [hm'] at H
      show (runBatch (appendQuad s) ops).maxBatchVertexCount = s.maxBatchVertexCount ∧ _
      exact ⟨H.1, H.2.1, H.2.2.1, H.2.2.2⟩

/-- Claim C1: over every sequence of quad appends and flushes of a draw
(which starts at cursor 0), every moment a quad's six vertices are written
satisfies cursor `+ INDICES_PER_CARD <=` capacity --- an overflowing append
having been preceded by a `_renderBatch` that reset the cursor to zero --- and
the cursor never exceeds the capacity.  The capacity hypothesis holds for
every constructor-produced `_maxBatchVertexCount` (which is at least
`170 * 6`). -/
theorem C1_capacity_invariant (cap : Int)
    (hcap : (INDICES_PER_CARD : Int) ≤ cap) (ops : List BatchOp) :
    (∀ c ∈ (runBatch (initBatch cap) ops).writeLog,
      c + (INDICES_PER_CARD : Int) ≤ cap) ∧
    0 ≤ (runBatch (initBatch cap) ops).batchVertexCount ∧
    (runBatch (initBatch cap) ops).batchVertexCount ≤ cap := by
  have hcap0 : (0 : Int) ≤ cap := by
    have h := hcap
    simp only [INDICES_PER_CARD] at h
    omega
  have h := runBatch_inv ops (initBatch cap) hcap (le_refl 0) hcap0
    (by intro c hc; exact absurd hc (List.not_mem_nil c))
  exact ⟨h.2.2.2, h.2.1, h.2.2.1⟩

/-- Witness for C1: with the default capacity (65520) three appends around a
flush log the write moments 0, 6 and 0, all within capacity. -/
theorem C1_capacity_invariant_witness :
    (6 : Int) ∈ (runBatch (initBatch (maxBatchVertexCount none))
      [BatchOp.append, BatchOp.append, BatchOp.flush, BatchOp.append]).writeLog ∧
    (6 : Int) + (INDICES_PER_CARD : Int) ≤ maxBatchVertexCount none := by
  refine ⟨by decide, ?_⟩
  exact (C1_capacity_invariant (maxBatchVertexCount none) (by decide)
    [BatchOp.append, BatchOp.append, BatchOp.flush, BatchOp.append]).1 6 (by decide)

/-- Effect of the `_renderBatch` projection on `RenderModeState`: it always
drains the pending quads; an empty batch is a no-op, a non-empty one appends
one submission carrying the current blend configuration and render mode; no
other field changes. -/
theorem renderBatchRM_effect (t : RenderModeState) :
    (renderBatchRM t).pending = [] ∧
    (t.pending = [] → renderBatchRM t = t) ∧
    (t.pending ≠ [] → (renderBatchRM t).submitted
      = t.submitted ++ [⟨t.pending, t.gpuBlend, t.renderMode⟩]) ∧
    (renderBatchRM t).renderMode = t.renderMode ∧
    (renderBatchRM t).gpuBlend = t.gpuBlend ∧
    (renderBatchRM t).directDraw = t.directDraw ∧
    (renderBatchRM t).builtShaders = t.builtShaders := by
  unfold renderBatchRM
  by_cases he : t.pending.isEmpty
  · have hnil : t.pending = [] := by simpa using he
    simp [he, hnil]
  · have hne : t.pending ≠ [] := by simpa using he
    simp [he, hne]

/-- `_renderBatch` preserves the tagging invariants. -/
theorem renderBatchRM_tagged (t : RenderModeState)
    (hp : PendingTagged t) (hs : SubmissionsTagged t) :
    PendingTagged (renderBatchRM t) ∧ SubmissionsTagged (renderBatchRM t) := by
  unfold renderBatchRM
  by_cases he : t.pending.isEmpty
  · simp only [he, if_true]
    exact ⟨hp, hs⟩
  · simp only [he, Bool.false_eq_true, if_false]
    constructor
    · intro q hq
      exact absurd hq (List.not_mem_nil q)
    · intro sub hsub q hq
      rcases List.mem_append.mp hsub with h | h
      · exact hs sub h q hq
      · simp only [List.mem_singleton] at h
        subst h
        exact hp q hq

/-- Lines 2091-2108 preserve the tagging invariants: the flush happens while
the old mode and blend configuration are still in force, and afterwards the
buffers are empty. -/
theorem applyModeSwitch_tagged (s : RenderModeState) (m : String) (d : ShaderData)
    (hp : PendingTagged s) (hs : SubmissionsTagged s) :
    PendingTagged (applyModeSwitch s m d) ∧
    SubmissionsTagged (applyModeSwitch s m d) := by
  unfold applyModeSwitch
  by_cases hrej : (d.immediate && s.directDraw) = true
  · simp only [hrej, if_true]
    exact ⟨hp, hs⟩
  · simp only [hrej, Bool.false_eq_true, if_false]
    by_cases hi : d.immediate = true
    · simp only [hi, if_true]
      have hp1 : PendingTagged { s with activeConfigMicro := true } := hp
      have hs1 : SubmissionsTagged { s with activeConfigMicro := true } := hs
      obtain ⟨hp2, hs2⟩ := renderBatchRM_tagged _ hp1 hs1
      have hnil := (renderBatchRM_effect { s with activeConfigMicro := true }).1
      constructor
      · intro q hq
        have hq' : q ∈ (renderBatchRM { s with activeConfigMicro := true }).pending := hq
        rw [hnil] at hq'
        exact absurd hq' (List.not_mem_nil q)
      · intro sub hsub q hq
        exact hs2 sub hsub q hq
    · simp only [hi, Bool.false_eq_true, if_false]
      obtain ⟨hp2, hs2⟩ := renderBatchRM_tagged s hp hs
      have hnil := (renderBatchRM_effect s).1
      constructor
      · intro q hq
        have hq' : q ∈ (renderBatchRM s).pending := hq
        rw [hnil] at hq'
        exact absurd hq' (List.not_mem_nil q)
      · intro sub hsub q hq
        exact hs2 sub hsub q hq

/-- Lines 2091-2095: an immediate mode under direct draw makes the whole
switch a no-op. -/
theorem applyModeSwitch_reject (t : RenderModeState) (m : String) (d : ShaderData)
    (h : (d.immediate && t.directDraw) = true) :
    applyModeSwitch t m d = t := by
  unfold applyModeSwitch
  rw [if_pos h]

/-- Lines 2099-2108, non-rejected switch with pending geometry: the flush
happens first, under the pre-switch blend configuration and render mode, and
leaves the buffers empty. -/
theorem applyModeSwitch_submit (t : RenderModeState) (m : String) (d : ShaderData)
    (hrej : ¬ (d.immediate && t.directDraw) = true)
    (hpend : t.pending ≠ []) :
    (applyModeSwitch t m d).submitted
      = t.submitted ++ [⟨t.pending, t.gpuBlend, t.renderMode⟩] ∧
    (applyModeSwitch t m d).pending = [] := by
  unfold applyModeSwitch
  rw [if_neg hrej]
  by_cases hi : d.immediate = true
  · simp only [hi, if_true]
    have heff := renderBatchRM_effect { t with activeConfigMicro := true }
    exact ⟨heff.2.2.1 hpend, heff.1⟩
  · simp only [hi, Bool.false_eq_true, if_false]
    have heff := renderBatchRM_effect t
    exact ⟨heff.2.2.1 hpend, heff.1⟩

/-- `_updateRenderMode` preserves the tagging invariants. -/
theorem updateRenderMode_tagged (ok : String → Bool) (s : RenderModeState)
    (m : Option String) (hp : PendingTagged s) (hs : SubmissionsTagged s) :
    PendingTagged (updateRenderMode ok s m) ∧
    SubmissionsTagged (updateRenderMode ok s m) := by
  unfold updateRenderMode
  by_cases heq : s.renderMode = (resolveBlendMode m).1
  · rw [if_pos heq]
    exact ⟨hp, hs⟩
  · rw [if_neg heq]
    cases hlk : lookupShader s.builtShaders (resolveBlendMode m).1 with
    | some d =>
      exact applyModeSwitch_tagged s _ d hp hs
    | none =>
      by_cases hok : ok (resolveBlendMode m).1 = true
      · rw [if_pos hok]
        exact applyModeSwitch_tagged _ _ _ hp hs
      · rw [if_neg hok]
        exact ⟨hp, hs⟩

/-- Every event of the render-mode machine preserves the tagging invariants. -/
theorem stepRM_tagged (ok : String → Bool) (s : RenderModeState) (op : RMOp)
    (hp : PendingTagged s) (hs : SubmissionsTagged s) :
    PendingTagged (stepRM ok s op) ∧ SubmissionsTagged (stepRM ok s op) := by
  cases op with
  | append =>
    constructor
    · intro q hq
      rcases List.mem_append.mp hq with h | h
      · exact hp q h
      · simp only [List.mem_singleton] at h
        subst h
        exact ⟨rfl, rfl⟩
    · intro sub hsub q hq
      exact hs sub hsub q hq
  | setMode m => exact updateRenderMode_tagged ok s m hp hs
  | flush => exact renderBatchRM_tagged s hp hs

/-- The tagging invariants hold in every reachable state. -/
theorem runRM_tagged (ok : String → Bool) (ops : List RMOp) :
    ∀ s : RenderModeState, PendingTagged s → SubmissionsTagged s →
      PendingTagged (runRM ok s ops) ∧ SubmissionsTagged (runRM ok s ops) := by
  induction ops with
  | nil => intro s hp hs; exact ⟨hp, hs⟩
  | cons op ops ih =>
    intro s hp hs
    obtain ⟨hp', hs'⟩ := stepRM_tagged ok s op hp hs
    exact ih (stepRM ok s op) hp' hs'

/-- When `_updateRenderMode` actually changes the active mode and quads are
pending, the pending geometry is submitted in exactly one flush carrying the
previous mode and the previous blend configuration, and the buffers are left
empty --- the GPU blend constants change only after that flush. -/
theorem updateRenderMode_flush_first (ok : String → Bool) (s : RenderModeState)
    (m : Option String)
    (hch : (updateRenderMode ok s m).renderMode ≠ s.renderMode)
    (hpend : s.pending ≠ []) :
    (updateRenderMode ok s m).submitted
      = s.submitted ++ [⟨s.pending, s.gpuBlend, s.renderMode⟩] ∧
    (updateRenderMode ok s m).pending = [] := by
  revert hch
  unfold updateRenderMode
  by_cases heq : s.renderMode = (resolveBlendMode m).1
  · rw [if_pos heq]
    intro hch
    exact absurd rfl hch
  · rw [if_neg heq]
    cases hlk : lookupShader s.builtShaders (resolveBlendMode m).1 with
    | some d =>
      dsimp only
      by_cases hrej : (d.immediate && s.directDraw) = true
      · rw [applyModeSwitch_reject s _ d hrej]
        intro hch
        exact absurd rfl hch
      · intro _
        exact applyModeSwitch_submit s _ d hrej hpend
    | none =>
      dsimp only
      by_cases hok : ok (resolveBlendMode m).1 = true
      · rw [if_pos hok]
        by_cases hrej : ((buildShaderData (resolveBlendMode m).1
            (resolveBlendMode m).2).immediate && s.directDraw) = true
        · rw [applyModeSwitch_reject
            { s with builtShaders := ((resolveBlendMode m).1,
                buildShaderData (resolveBlendMode m).1 (resolveBlendMode m).2)
                :: s.builtShaders }
            (resolveBlendMode m).1
            (buildShaderData (resolveBlendMode m).1 (resolveBlendMode m).2) hrej]
          intro hch
          exact absurd rfl hch
        · intro _
          exact applyModeSwitch_submit
            { s with builtShaders := ((resolveBlendMode m).1,
                buildShaderData (resolveBlendMode m).1 (resolveBlendMode m).2)
                :: s.builtShaders }
            (resolveBlendMode m).1
            (buildShaderData (resolveBlendMode m).1 (resolveBlendMode m).2) hrej hpend
      · rw [if_neg hok]
        intro hch
        exact absurd rfl hch

/-- Claim C2: in every reachable state of the blend state machine, every GPU
submission ever made carried only quads appended under exactly the render
mode and GPU blend configuration the submission was issued with; the quads
still buffered were appended under the currently installed configuration; and
a mode transition with pending geometry submits that geometry under the
previous mode and blend configuration (in one flush, before the blend
constants change), leaving the buffer empty. -/
theorem C2_blend_boundary (ok : String → Bool) (dd : Bool) (ops : List RMOp) :
    SubmissionsTagged (runRM ok (initRM dd) ops) ∧
    PendingTagged (runRM ok (initRM dd) ops) ∧
    (∀ m : Option String,
      (updateRenderMode ok (runRM ok (initRM dd) ops) m).renderMode
        ≠ (runRM ok (initRM dd) ops).renderMode →
      (runRM ok (initRM dd) ops).pending ≠ [] →
      (updateRenderMode ok (runRM ok (initRM dd) ops) m).submitted
        = (runRM ok (initRM dd) ops).submitted
          ++ [⟨(runRM ok (initRM dd) ops).pending,
               (runRM ok (initRM dd) ops).gpuBlend,
               (runRM ok (initRM dd) ops).renderMode⟩] ∧
      (updateRenderMode ok (runRM ok (initRM dd) ops) m).pending = []) := by
  have hinit_p : PendingTagged (initRM dd) := by
    intro q hq
    exact absurd hq (List.not_mem_nil q)
  have hinit_s : SubmissionsTagged (initRM dd) := by
    intro sub hsub
    exact absurd hsub (List.not_mem_nil sub)
  obtain ⟨hp, hs⟩ := runRM_tagged ok ops (initRM dd) hinit_p hinit_s
  exact ⟨hs, hp, fun m hch hpend =>
    updateRenderMode_flush_first ok (runRM ok (initRM dd) ops) m hch hpend⟩

/-- Witness for C2: after building "source-over", appending a quad and
switching to "screen", the machine flushed the quad under the source-over
blend configuration before installing the screen constants. -/
theorem C2_blend_boundary_witness :
    (updateRenderMode (fun _ => true)
        (runRM (fun _ => true) (initRM false)
          [RMOp.setMode (some "source-over"), RMOp.append]) (some "screen")).submitted
      = (runRM (fun _ => true) (initRM false)
          [RMOp.setMode (some "source-over"), RMOp.append]).submitted
        ++ [⟨(runRM (fun _ => true) (initRM false)
                [RMOp.setMode (some "source-over"), RMOp.append]).pending,
             (runRM (fun _ => true) (initRM false)
                [RMOp.setMode (some "source-over"), RMOp.append]).gpuBlend,
             (runRM (fun _ => true) (initRM false)
                [RMOp.setMode (some "source-over"), RMOp.append]).renderMode⟩] ∧
    (updateRenderMode (fun _ => true)
        (runRM (fun _ => true) (initRM false)
          [RMOp.setMode (some "source-over"), RMOp.append]) (some "screen")).pending
      = [] :=
  (C2_blend_boundary (fun _ => true) false
    [RMOp.setMode (some "source-over"), RMOp.append]).2.2 (some "screen")
    (by decide) (by decide)

/-- The mode switch never touches `directDraw` or the memo table beyond what
its caller already did. -/
theorem applyModeSwitch_dd_memo (t : RenderModeState) (m : String) (d : ShaderData) :
    (applyModeSwitch t m d).directDraw = t.directDraw ∧
    (applyModeSwitch t m d).builtShaders = t.builtShaders := by
  unfold applyModeSwitch
  by_cases hrej : (d.immediate && t.directDraw) = true
  · rw [if_pos hrej]
    exact ⟨rfl, rfl⟩
  · rw [if_neg hrej]
    by_cases hi : d.immediate = true
    · simp only [hi, if_true]
      have heff := renderBatchRM_effect { t with activeConfigMicro := true }
      exact ⟨heff.2.2.2.2.2.1, heff.2.2.2.2.2.2⟩
    · simp only [hi, Bool.false_eq_true, if_false]
      have heff := renderBatchRM_effect t
      exact ⟨heff.2.2.2.2.2.1, heff.2.2.2.2.2.2⟩

/-- The resolved mode of lines 2054-2061 always has a `BLEND_SOURCES` entry,
namely the descriptor the resolution returned. -/
theorem resolveBlendMode_lookup (m : Option String) :
    BLEND_SOURCES (resolveBlendMode m).1 = some (resolveBlendMode m).2 := by
  unfold resolveBlendMode
  dsimp only
  cases hb : BLEND_SOURCES (m.getD "source-over") with
  | some b => simp [hb]
  | none =>
    simp only [hb]
    rfl

/-- One machine event preserves `directDraw` and memo consistency. -/
theorem stepRM_dd_memo (ok : String → Bool) (s : RenderModeState) (op : RMOp)
    (h : MemoConsistent s) :
    (stepRM ok s op).directDraw = s.directDraw ∧ MemoConsistent (stepRM ok s op) := by
  cases op with
  | append => exact ⟨rfl, h⟩
  | flush =>
    show (renderBatchRM s).directDraw = s.directDraw ∧ MemoConsistent (renderBatchRM s)
    have heff := renderBatchRM_effect s
    refine ⟨heff.2.2.2.2.2.1, ?_⟩
    intro p hp
    rw [heff.2.2.2.2.2.2] at hp
    exact h p hp
  | setMode m =>
    show (updateRenderMode ok s m).directDraw = s.directDraw
      ∧ MemoConsistent (updateRenderMode ok s m)
    unfold updateRenderMode
    by_cases heq : s.renderMode = (resolveBlendMode m).1
    · rw [if_pos heq]
      exact ⟨rfl, h⟩
    · rw [if_neg heq]
      cases hlk : lookupShader s.builtShaders (resolveBlendMode m).1 with
      | some d =>
        dsimp only
        obtain ⟨hdd, hmm⟩ := applyModeSwitch_dd_memo s (resolveBlendMode m).1 d
        refine ⟨hdd, ?_⟩
        intro p hp
        rw [hmm] at hp
        exact h p hp
      | none =>
        dsimp only
        by_cases hok : ok (resolveBlendMode m).1 = true
        · rw [if_pos hok]
          obtain ⟨hdd, hmm⟩ := applyModeSwitch_dd_memo
            { s with builtShaders := ((resolveBlendMode m).1,
                buildShaderData (resolveBlendMode m).1 (resolveBlendMode m).2)
                :: s.builtShaders }
            (resolveBlendMode m).1
            (buildShaderData (resolveBlendMode m).1 (resolveBlendMode m).2)
          refine ⟨hdd, ?_⟩
          intro p hp
          rw [hmm] at hp
          rcases List.mem_cons.mp hp with hfirst | hrest
          · subst hfirst
            exact ⟨(resolveBlendMode m).2, resolveBlendMode_lookup m, rfl⟩
          · exact h p hrest
        · rw [if_neg hok]
          exact ⟨rfl, h⟩

/-- Reachable states of the machine keep their `directDraw` configuration and
a consistent memo table. -/
theorem runRM_dd_memo (ok : String → Bool) (ops : List RMOp) :
    ∀ s : RenderModeState, MemoConsistent s →
      (runRM ok s ops).directDraw = s.directDraw ∧
      MemoConsistent (runRM ok s ops) := by
  induction ops with
  | nil => intro s h; exact ⟨rfl, h⟩
  | cons op ops ih =>
    intro s h
    obtain ⟨hdd, hm⟩ := stepRM_dd_memo ok s op h
    obtain ⟨hdd', hm'⟩ := ih (stepRM ok s op) hm
    exact ⟨hdd' ▸ hdd ▸ rfl, hm'⟩

/-- `_updateRenderMode` requesting an immediate (custom-shader) mode while in
direct-draw configuration: apart from possibly populating the `_builtShaders`
memo and logging, nothing changes --- render mode, blend constants, attribute
configuration, immediate flag, pending buffer and submission history all stay
put, and no flush happens. -/
theorem updateRenderMode_immediate_direct (ok : String → Bool)
    (s : RenderModeState) (m : String) (bs : BlendSrc)
    (hm : BLEND_SOURCES m = some bs) (him : bs.hasShader = true)
    (hdd : s.directDraw = true) (hmemo : MemoConsistent s) :
    (updateRenderMode ok s (some m)).renderMode = s.renderMode ∧
    (updateRenderMode ok s (some m)).gpuBlend = s.gpuBlend ∧
    (updateRenderMode ok s (some m)).activeConfigMicro = s.activeConfigMicro ∧
    (updateRenderMode ok s (some m)).immediateRender = s.immediateRender ∧
    (updateRenderMode ok s (some m)).pending = s.pending ∧
    (updateRenderMode ok s (some m)).submitted = s.submitted := by
  have hres : resolveBlendMode (some m) = (m, bs) := by
    unfold resolveBlendMode
    simp [hm]
  unfold updateRenderMode
  rw [hres]
  dsimp only
  by_cases heq : s.renderMode = m
  · rw [if_pos heq]
    exact ⟨rfl, rfl, rfl, rfl, rfl, rfl⟩
  · rw [if_neg heq]
    cases hlk : lookupShader s.builtShaders m with
    | some d =>
      dsimp only
      obtain ⟨p, hfind, hp2⟩ := Option.map_eq_some'.mp hlk
      have hpmem := List.mem_of_find?_eq_some hfind
      have hpeq : p.1 = m := by
        have := List.find?_some hfind
        simpa using this
      obtain ⟨bs2, hbs2, hpd⟩ := hmemo p hpmem
      have hbs2' : bs2 = bs := by
        rw [hpeq, hm] at hbs2
        exact (Option.some.inj hbs2).symm
      have himm : d.immediate = true := by
        rw [← hp2, hpd, hpeq, hbs2']
        exact him
      rw [applyModeSwitch_reject s m d (by rw [himm, hdd]; rfl)]
      exact ⟨rfl, rfl, rfl, rfl, rfl, rfl⟩
    | none =>
      dsimp only
      by_cases hok : ok m = true
      · rw [if_pos hok]
        rw [applyModeSwitch_reject
          { s with builtShaders := (m, buildShaderData m bs) :: s.builtShaders }
          m (buildShaderData m bs)
          (by show (bs.hasShader && s.directDraw) = true; rw [him, hdd]; rfl)]
        exact ⟨rfl, rfl, rfl, rfl, rfl, rfl⟩
      · rw [if_neg hok]
        exact ⟨rfl, rfl, rfl, rfl, rfl, rfl⟩

/-- Claim C6: in a direct-draw stage, every reachable state rejects a request
for a blend mode whose descriptor carries a custom shader (an immediate,
multi-pass mode): the active render mode, the GPU blend constants, the active
attribute configuration and the immediate flag are unchanged, no flush occurs
(pending buffer and submission history untouched), and no exception escapes
(the embedding is total; the source `catch` swallows compile failures). -/
theorem C6_immediate_rejected_direct (ok : String → Bool) (ops : List RMOp)
    (m : String) (bs : BlendSrc) (hm : BLEND_SOURCES m = some bs)
    (him : bs.hasShader = true) :
    (updateRenderMode ok (runRM ok (initRM true) ops) (some m)).renderMode
      = (runRM ok (initRM true) ops).renderMode ∧
    (updateRenderMode ok (runRM ok (initRM true) ops) (some m)).gpuBlend
      = (runRM ok (initRM true) ops).gpuBlend ∧
    (updateRenderMode ok (runRM ok (initRM true) ops) (some m)).activeConfigMicro
      = (runRM ok (initRM true) ops).activeConfigMicro ∧
    (updateRenderMode ok (runRM ok (initRM true) ops) (some m)).immediateRender
      = (runRM ok (initRM true) ops).immediateRender ∧
    (updateRenderMode ok (runRM ok (initRM true) ops) (some m)).pending
      = (runRM ok (initRM true) ops).pending ∧
    (updateRenderMode ok (runRM ok (initRM true) ops) (some m)).submitted
      = (runRM ok (initRM true) ops).submitted := by
  have hinit : MemoConsistent (initRM true) := by
    intro p hp
    exact absurd hp (List.not_mem_nil p)
  obtain ⟨hdd, hmemo⟩ := runRM_dd_memo ok ops (initRM true) hinit
  exact updateRenderMode_immediate_direct ok (runRM ok (initRM true) ops)
    m bs hm him hdd hmemo

/-- Witness for C6: requesting "multiply" (an immediate mode) right after
initialisation of a direct-draw stage changes none of the observed fields. -/
theorem C6_immediate_rejected_direct_witness :
    (updateRenderMode (fun _ => true) (runRM (fun _ => true) (initRM true) [])
        (some "multiply")).renderMode
      = (runRM (fun _ => true) (initRM true) []).renderMode ∧
    (updateRenderMode (fun _ => true) (runRM (fun _ => true) (initRM true) [])
        (some "multiply")).gpuBlend
      = (runRM (fun _ => true) (initRM true) []).gpuBlend ∧
    (updateRenderMode (fun _ => true) (runRM (fun _ => true) (initRM true) [])
        (some "multiply")).activeConfigMicro
      = (runRM (fun _ => true) (initRM true) []).activeConfigMicro ∧
    (updateRenderMode (fun _ => true) (runRM (fun _ => true) (initRM true) [])
        (some "multiply")).immediateRender
      = (runRM (fun _ => true) (initRM true) []).immediateRender ∧
    (updateRenderMode (fun _ => true) (runRM (fun _ => true) (initRM true) [])
        (some "multiply")).pending
      = (runRM (fun _ => true) (initRM true) []).pending ∧
    (updateRenderMode (fun _ => true) (runRM (fun _ => true) (initRM true) [])
        (some "multiply")).submitted
      = (runRM (fun _ => true) (initRM true) []).submitted :=
  C6_immediate_rejected_direct (fun _ => true) [] "multiply"
    { hasShader := true } (by rfl) (by rfl)

/-- A list entry read through `getD` at an in-range index is a member. -/
theorem getD_mem_of_lt {l : List (Option Nat)} {j : Nat} (h : j < l.length) :
    l.getD j none ∈ l := by
  rw [List.getD_eq_getElem?_getD, List.getElem?_eq_getElem h]
  exact List.getElem_mem h

/-- Every index the round-robin scan visits is a valid slot index. -/
theorem scanOrder_lt (start n : Nat) : ∀ j ∈ scanOrder start n, j < n := by
  intro j hj
  unfold scanOrder at hj
  obtain ⟨k, hk, rfl⟩ := List.mem_map.mp hj
  have hn : 0 < n := by
    have := List.mem_range.mp hk
    omega
  exact Nat.mod_lt _ hn

/-- With at least one slot, the scan visits the slot `start % n` (its first
stop). -/
theorem scanOrder_first_mem (start n : Nat) (hn : 0 < n) :
    start % n ∈ scanOrder start n := by
  unfold scanOrder
  exact List.mem_map.mpr ⟨0, List.mem_range.mpr hn, by rw [Nat.add_zero]⟩

/-- The start slot of the scan is a valid slot index. -/
theorem scanStart_lt (s : TexSlots) (hne : s.slots ≠ []) :
    scanStart s < s.slots.length := by
  unfold scanStart
  have hn : 0 < s.slots.length := List.length_pos.mpr hne
  have hnz : (s.slots.length : Int) ≠ 0 := by
    omega
  have h1 : 0 ≤ (s.lastTextureInsert + 1) % (s.slots.length : Int) :=
    Int.emod_nonneg _ hnz
  have h2 : (s.lastTextureInsert + 1) % (s.slots.length : Int)
      < (s.slots.length : Int) :=
    Int.emod_lt_of_pos _ (by omega)
  omega

/-- `_renderBatch` on the slot state: slots, blacklist, insert pointer and
eviction log are untouched; the batch counter never decreases, and advances by
exactly one on a non-empty batch while draining the cursor. -/
theorem renderBatchTS_effect (s : TexSlots) :
    (renderBatchTS s).slots = s.slots ∧
    (renderBatchTS s).blacklist = s.blacklist ∧
    (renderBatchTS s).lastTextureInsert = s.lastTextureInsert ∧
    (renderBatchTS s).evictions = s.evictions ∧
    ((s.batchVertexCount = 0 ∧ renderBatchTS s = s) ∨
      (0 < s.batchVertexCount ∧ (renderBatchTS s).batchID = s.batchID + 1 ∧
        (renderBatchTS s).batchVertexCount = 0)) := by
  unfold renderBatchTS
  by_cases h : s.batchVertexCount = 0
  · rw [if_pos h]
    exact ⟨rfl, rfl, rfl, rfl, Or.inl ⟨h, rfl⟩⟩
  · rw [if_neg h]
    exact ⟨rfl, rfl, rfl, rfl, Or.inr ⟨by omega, rfl, rfl⟩⟩

/-- A successful scan returns an eligible slot: in range, occupant not stamped
with the current batch, not blacklisted. -/
theorem findSlot_some_spec (s : TexSlots) (j : Nat) (h : findSlot s = some j) :
    j < s.slots.length ∧
    s.slots.getD j none ≠ some s.batchID ∧
    s.blacklist.getD j false = false := by
  have hmem := List.mem_of_find?_eq_some h
  have helig := List.find?_some h
  have hlt := scanOrder_lt (scanStart s) s.slots.length j hmem
  unfold slotEligible at helig
  rw [Bool.and_eq_true] at helig
  refine ⟨hlt, ?_, ?_⟩
  · exact of_decide_eq_true helig.1
  · have := helig.2
    cases hb : s.blacklist.getD j false
    · rfl
    · rw [hb] at this
      simp at this

/-- When every slot is ineligible (`found === -1`) and the invariant holds,
vertices are pending: some slot is stamped with the current batch, and such a
stamp is only given right before a six-vertex append. -/
theorem findSlot_none_pos (s : TexSlots) (hinv : TexInv s) (hne : s.slots ≠ [])
    (h : findSlot s = none) : 0 < s.batchVertexCount := by
  have hn : 0 < s.slots.length := List.length_pos.mpr hne
  have hjmem := scanOrder_first_mem (scanStart s) s.slots.length hn
  have hjelig : ¬ slotEligible s (scanStart s % s.slots.length) = true :=
    List.find?_eq_none.mp h _ hjmem
  have hbl : s.blacklist.getD (scanStart s % s.slots.length) false = false := by
    rw [hinv.1]
    rfl
  have hstamp : s.slots.getD (scanStart s % s.slots.length) none
      = some s.batchID := by
    unfold slotEligible at hjelig
    rw [hbl] at hjelig
    simp at hjelig
    rw [List.getD_eq_getElem?_getD]
    exact hjelig
  have hlt : scanStart s % s.slots.length < s.slots.length := Nat.mod_lt _ hn
  have hmem := getD_mem_of_lt hlt
  exact (hinv.2 _ hmem s.batchID hstamp).2 rfl

/-- Every slot-table event preserves the stamp invariant and extends the
eviction log only with evictions of occupants stamped strictly behind the
batch counter current at the eviction. -/
theorem stepTex_preserves (s : TexSlots) (op : TexOp)
    (hinv : TexInv s) (hsafe : EvictSafe s) (hne : s.slots ≠ []) :
    TexInv (stepTex s op) ∧ EvictSafe (stepTex s op) ∧
    (stepTex s op).slots.length = s.slots.length := by
  have hIPC : 0 < INDICES_PER_CARD := by decide
  cases op with
  | touch j =>
    refine ⟨⟨hinv.1, ?_⟩, hsafe, List.length_set s.slots j (some s.batchID)⟩
    intro st hst x hx
    rcases List.mem_or_eq_of_mem_set hst with hmem | heq
    · have h := hinv.2 st hmem x hx
      refine ⟨h.1, fun _ => ?_⟩
      show 0 < s.batchVertexCount + INDICES_PER_CARD
      omega
    · rw [heq] at hx
      injection hx with hbx
      refine ⟨?_, fun _ => ?_⟩
      · show x ≤ s.batchID
        omega
      · show 0 < s.batchVertexCount + INDICES_PER_CARD
        omega
  | killSlot j =>
    refine ⟨⟨hinv.1, ?_⟩, hsafe, List.length_set s.slots j none⟩
    intro st hst x hx
    rcases List.mem_or_eq_of_mem_set hst with hmem | heq
    · exact hinv.2 st hmem x hx
    · rw [heq] at hx
      exact Option.noConfusion hx
  | flush =>
    obtain ⟨hsl, hbl, hli, hev, hcase⟩ := renderBatchTS_effect s
    show TexInv (renderBatchTS s) ∧ EvictSafe (renderBatchTS s) ∧
      (renderBatchTS s).slots.length = s.slots.length
    rcases hcase with ⟨h0, heqs⟩ | ⟨hpos, hbid, hcnt⟩
    · rw [heqs]
      exact ⟨hinv, hsafe, rfl⟩
    · refine ⟨⟨by rw [hbl]; exact hinv.1, ?_⟩, ?_, by rw [hsl]⟩
      · intro st hst x hx
        rw [hsl] at hst
        have h := hinv.2 st hst x hx
        refine ⟨by omega, fun hxeq => ?_⟩
        rw [hbid] at hxeq
        omega
      · intro e he x hx
        rw [hev] at he
        exact hsafe e he x hx
  | drawBoundary =>
    obtain ⟨hsl, hbl, hli, hev, hcase⟩ := renderBatchTS_effect s
    refine ⟨⟨?_, ?_⟩, ?_, ?_⟩
    · show (renderBatchTS s).blacklist = []
      rw [hbl]
      exact hinv.1
    · intro st hst x hx
      have hst' : st ∈ (renderBatchTS s).slots := hst
      rw [hsl] at hst'
      have h := hinv.2 st hst' x hx
      refine ⟨?_, fun hxeq => ?_⟩
      · show x ≤ (renderBatchTS s).batchID
        rcases hcase with ⟨h0, heqs⟩ | ⟨hpos, hbid, hcnt⟩
        · rw [heqs]
          exact h.1
        · omega
      · exfalso
        have hxeq' : x = (renderBatchTS s).batchID := hxeq
        rcases hcase with ⟨h0, heqs⟩ | ⟨hpos, hbid, hcnt⟩
        · rw [heqs] at hxeq'
          have := h.2 hxeq'
          omega
        · rw [hbid] at hxeq'
          omega
    · intro e he x hx
      have he' : e ∈ (renderBatchTS s).evictions := he
      rw [hev] at he'
      exact hsafe e he' x hx
    · show (renderBatchTS s).slots.length = s.slots.length
      rw [hsl]
  | insertNew =>
    unfold stepTex insertTexture
    cases hfs : findSlot s with
    | some j =>
      dsimp only
      obtain ⟨hjlt, hne_stamp, _⟩ := findSlot_some_spec s j hfs
      refine ⟨⟨hinv.1, ?_⟩, ?_, List.length_set s.slots j (some s.batchID)⟩
      · intro st hst x hx
        rcases List.mem_or_eq_of_mem_set hst with hmem | heq
        · have h := hinv.2 st hmem x hx
          refine ⟨h.1, fun _ => ?_⟩
          show 0 < s.batchVertexCount + INDICES_PER_CARD
          omega
        · rw [heq] at hx
          injection hx with hbx
          refine ⟨?_, fun _ => ?_⟩
          · show x ≤ s.batchID
            omega
          · show 0 < s.batchVertexCount + INDICES_PER_CARD
            omega
      · intro e he x hx
        rcases List.mem_append.mp he with hold | hnew
        · exact hsafe e hold x hx
        · simp only [List.mem_singleton] at hnew
          subst hnew
          have hmem := getD_mem_of_lt hjlt
          have h := (hinv.2 _ hmem x hx).1
          have hx2 : s.slots.getD j none = some x := hx
          have hxb : x ≠ s.batchID := by
            intro hc
            apply hne_stamp
            rw [hx2, hc]
          show x < s.batchID
          omega
    | none =>
      dsimp only
      have hpos := findSlot_none_pos s hinv hne hfs
      obtain ⟨hsl, hbl, hli, hev, hcase⟩ := renderBatchTS_effect s
      rcases hcase with ⟨h0, _⟩ | ⟨_, hbid, hcnt⟩
      · omega
      · have hstart_lt : scanStart (renderBatchTS s) < s.slots.length := by
          unfold scanStart
          rw [hsl, hli]
          exact scanStart_lt s hne
        refine ⟨⟨?_, ?_⟩, ?_, ?_⟩
        · show (renderBatchTS s).blacklist = []
          rw [hbl]
          exact hinv.1
        · intro st hst x hx
          rcases List.mem_or_eq_of_mem_set hst with hmem | heq
          · rw [hsl] at hmem
            have h := (hinv.2 st hmem x hx).1
            refine ⟨?_, fun _ => ?_⟩
            · show x ≤ (renderBatchTS s).batchID
              omega
            · show 0 < (renderBatchTS s).batchVertexCount + INDICES_PER_CARD
              omega
          · rw [heq] at hx
            injection hx with hbx
            refine ⟨?_, fun _ => ?_⟩
            · show x ≤ (renderBatchTS s).batchID
              omega
            · show 0 < (renderBatchTS s).batchVertexCount + INDICES_PER_CARD
              omega
        · intro e he x hx
          rcases List.mem_append.mp he with hold | hnew
          · rw [hev] at hold
            exact hsafe e hold x hx
          · simp only [List.mem_singleton] at hnew
            subst hnew
            have hx' : (renderBatchTS s).slots.getD
                (scanStart (renderBatchTS s)) none = some x := hx
            rw [hsl] at hx'
            have hmem := getD_mem_of_lt hstart_lt
            have h := (hinv.2 _ hmem x hx').1
            show x < (renderBatchTS s).batchID
            omega
        · show ((renderBatchTS s).slots.set (scanStart (renderBatchTS s))
              (some (renderBatchTS s).batchID)).length = s.slots.length
          rw [List.length_set, hsl]

/-- The invariant and eviction safety hold in every reachable slot-table
state, and the slot count never changes. -/
theorem runTex_preserves (ops : List TexOp) :
    ∀ s : TexSlots, TexInv s → EvictSafe s → s.slots ≠ [] →
      TexInv (runTex s ops) ∧ EvictSafe (runTex s ops) ∧
      (runTex s ops).slots.length = s.slots.length := by
  induction ops with
  | nil => intro s hinv hsafe _; exact ⟨hinv, hsafe, rfl⟩
  | cons op ops ih =>
    intro s hinv hsafe hne
    obtain ⟨hinv', hsafe', hlen'⟩ := stepTex_preserves s op hinv hsafe hne
    have hne' : (stepTex s op).slots ≠ [] := by
      intro hc
      rw [hc] at hlen'
      simp at hlen'
      exact hne (List.length_eq_zero.mp hlen'.symm)
    obtain ⟨hinv'', hsafe'', hlen''⟩ := ih (stepTex s op) hinv' hsafe' hne'
    refine ⟨hinv'', hsafe'', ?_⟩
    show (runTex (stepTex s op) ops).slots.length = s.slots.length
    omega

/-- Claim C3: starting from `_initMaterials` with `n >= 1` slots, over every
sequence of texture inserts, stamp refreshes, flushes, draw boundaries and
texture kills, (a) every eviction the slot scan or its overflow path ever
performs removes an occupant whose last-used-in-batch stamp is strictly
behind the `_batchID` current at the moment of the eviction (never one
stamped with the current batch), and (b) whenever the round-robin scan
returns a slot, that slot's occupant is not stamped with the current batch
and the slot is not blacklisted --- when no such slot exists the overflow
path flushes first and only then evicts at the start slot. -/
theorem C3_eviction_safety (n : Nat) (hn : 0 < n) (ops : List TexOp) :
    (∀ e ∈ (runTex (initTex n) ops).evictions,
      ∀ x, e.2.1 = some x → x < e.2.2) ∧
    (∀ j, findSlot (runTex (initTex n) ops) = some j →
      (runTex (initTex n) ops).slots.getD j none
          ≠ some (runTex (initTex n) ops).batchID ∧
      (runTex (initTex n) ops).blacklist.getD j false = false) := by
  have hinv0 : TexInv (initTex n) := by
    refine ⟨rfl, ?_⟩
    intro st hst x hx
    have := List.eq_of_mem_replicate hst
    rw [this] at hx
    exact Option.noConfusion hx
  have hsafe0 : EvictSafe (initTex n) := by
    intro e he
    exact absurd he (List.not_mem_nil e)
  have hne0 : (initTex n).slots ≠ [] := by
    intro hc
    have h2 : (List.replicate n (none : Option Nat)).length = 0 := by
      show (initTex n).slots.length = 0
      rw [hc]
      rfl
    rw [List.length_replicate] at h2
    omega
  obtain ⟨hinv, hsafe, _⟩ := runTex_preserves ops (initTex n) hinv0 hsafe0 hne0
  refine ⟨hsafe, ?_⟩
  intro j hj
  obtain ⟨_, hstamp, hbl⟩ := findSlot_some_spec _ j hj
  exact ⟨hstamp, hbl⟩

/-- Witness for C3: with one slot, inserting two distinct textures forces a
texture-overflow flush; the logged eviction removes the stamp-0 occupant at
batch counter 1, strictly behind. -/
theorem C3_eviction_safety_witness :
    (0, (some 0 : Option Nat), 1)
      ∈ (runTex (initTex 1) [TexOp.insertNew, TexOp.insertNew]).evictions ∧
    (0 : Nat) < 1 := by
  refine ⟨by decide, ?_⟩
  exact (C3_eviction_safety 1 (by decide) [TexOp.insertNew, TexOp.insertNew]).1
    (0, some 0, 1) (by decide) 0 (by decide)

end Easel
